import Mathlib

/-!
Shallow embedding of `src/flight/OpenPilot/Modules/AHRSComms/ahrs_comms.c`:
the AHRSComms session state machine, the configuration-sync flags, the GPS
quality filter and the message marshalling, together with theorems settling
the specification's claims about them.

Float-valued fields that only flow through the module are modelled over `ℚ`
(the module compares and copies them, so exact arithmetic is faithful for
the control flow under study); the two genuinely numeric marshalling
functions (`load_magnetic_north`, the attitude part of `process_update`)
are modelled over `ℝ` in the `Marshal` namespace.
-/

namespace AhrsComms

/-- Result of a transport primitive (`enum opahrs_result`): `OPAHRS_RESULT_OK`
or any failing code. -/
inductive OpahrsResult where
  | ok
  | failed
deriving DecidableEq, Repr

/-- Three-axis vector of float values, modelled exactly over `ℚ`. -/
structure Vec3 where
  x : ℚ
  y : ℚ
  z : ℚ
deriving DecidableEq, Repr

/-- Zero vector. -/
def vec0 : Vec3 := ⟨0, 0, 0⟩

/-- Calibration mode stored in the AHRSCalibration object
(`AHRSCALIBRATION_MEASURE_VAR_SET / _MEASURE / _ECHO`). -/
inductive CalMeasureVar where
  | varSet
  | varMeasure
  | varEcho
deriving DecidableEq, Repr

/-- Calibration mode on the wire (`AHRS_SET / AHRS_MEASURE / AHRS_ECHO`).
The specification's "continuous measurement" mode names the `AHRS_ECHO`
sentinel (the one the state machine refuses to latch `CalibrationSet` on). -/
inductive WireMeasureVar where
  | set
  | measure
  | echo
deriving DecidableEq, Repr

/-- The AHRSCalibration UAVObject record: a mode plus nine three-axis
vectors (bias/scale/variance for accelerometer, gyroscope, magnetometer). -/
structure AHRSCalibrationData where
  measure_var : CalMeasureVar
  accel_bias : Vec3
  accel_scale : Vec3
  accel_var : Vec3
  gyro_bias : Vec3
  gyro_scale : Vec3
  gyro_var : Vec3
  mag_bias : Vec3
  mag_scale : Vec3
  mag_var : Vec3
deriving DecidableEq, Repr

/-- Fields of `struct opahrs_msg_v1_req_calibration` assigned by
`load_calibration` (the wire header is not under src/; the message is
modelled by the fields the module writes). -/
structure OpahrsReqCalibration where
  measure_var : WireMeasureVar
  accel_bias : Vec3
  accel_scale : Vec3
  accel_var : Vec3
  gyro_bias : Vec3
  gyro_scale : Vec3
  gyro_var : Vec3
  mag_bias : Vec3
  mag_var : Vec3
deriving DecidableEq, Repr

/-- Fields of `struct opahrs_msg_v1_rsp_calibration` read by the module:
the echoed mode and the three echoed variance vectors. -/
structure OpahrsRspCalibration where
  measure_var : WireMeasureVar
  accel_var : Vec3
  gyro_var : Vec3
  mag_var : Vec3
deriving DecidableEq, Repr

/-- Embedding of `load_calibration` (ahrs_comms.c lines 318-354): map the
stored mode to the wire mode (`SET`, `MEASURE`, anything else `ECHO`) and
copy the accel bias/scale/var, gyro bias/scale/var, mag bias and mag var
vectors.  `data.mag_scale` is the one vector never read. -/
def load_calibration (data : AHRSCalibrationData) : OpahrsReqCalibration :=
  { measure_var :=
      match data.measure_var with
      | .varSet => .set
      | .varMeasure => .measure
      | .varEcho => .echo
  , accel_bias := data.accel_bias
  , accel_scale := data.accel_scale
  , accel_var := data.accel_var
  , gyro_bias := data.gyro_bias
  , gyro_scale := data.gyro_scale
  , gyro_var := data.gyro_var
  , mag_bias := data.mag_bias
  , mag_var := data.mag_var }

/-- State of the calibration sync tracker: the external AHRSCalibration
record plus the two module-level flags `AHRSCalibrationIsUpdatedFlag`
(dirty) and `AHRSCalibrationIsLocallyUpdateFlag` (one-shot echo
suppression). -/
structure CalTrackerState where
  calRecord : AHRSCalibrationData
  calibDirty : Bool
  calibLocal : Bool
deriving DecidableEq, Repr

/-- Embedding of `AHRSCalibrationUpdatedCb` (lines 117-123): if the one-shot
local flag is set, consume it; otherwise mark the calibration dirty. -/
def AHRSCalibrationUpdatedCb (s : CalTrackerState) : CalTrackerState :=
  if s.calibLocal = true then
    { s with calibLocal := false }
  else
    { s with calibDirty := true }

/-- Embedding of `update_calibration` (lines 356-373): raise the one-shot
local flag and write the echoed variance vectors back into the external
calibration record. -/
def update_calibration (rsp : OpahrsRspCalibration) (s : CalTrackerState) : CalTrackerState :=
  { s with
      calibLocal := true
      calRecord :=
        { s.calRecord with
            accel_var := rsp.accel_var
            gyro_var := rsp.gyro_var
            mag_var := rsp.mag_var } }

/-- The HomeLocation UAVObject fields the module reads: magnetic reference
`Be`, the `Set` and `Indoor` flags, the ECEF origin in centimetres
(int32 values) and the rotation matrix `RNE`. -/
structure HomeLocationData where
  Be : Vec3
  Set : Bool
  Indoor : Bool
  ECEF : ℤ × ℤ × ℤ
  RNE : Vec3 × Vec3 × Vec3
deriving DecidableEq, Repr

/-- The GPSPosition UAVObject fields the module reads.  `Latitude` and
`Longitude` are int32 values in 1e-7 degree, `Satellites` an int8 count. -/
structure GPSPositionData where
  Latitude : ℤ
  Longitude : ℤ
  Altitude : ℚ
  GeoidSeparation : ℚ
  Groundspeed : ℚ
  Heading : ℚ
  Satellites : ℤ
  PDOP : ℚ
deriving DecidableEq, Repr

/-- The fix-quality gate threshold on PDOP: the C float literal `3.5`,
which is exactly `7/2`.  Written as a raw rational so that concrete runs
reduce inside the kernel (see `PDOP_GATE_eq`). -/
def PDOP_GATE : ℚ := ⟨7, 2, by decide, by decide⟩

/-- The GPS sub-message of `struct opahrs_msg_v1_req_update`, holding the
fields `load_gps_position` can write.  A value of this type passed in
models the prior (uninitialised stack) contents of the request buffer. -/
structure GpsMsg where
  updated : Bool
  NED : Vec3
  groundspeed : ℚ
  heading : ℚ
  quality : ℤ
deriving DecidableEq, Repr

/-- Embedding of `load_gps_position` (lines 408-447).  The global counter
`GPSGoodUpdates` is threaded explicitly; `lla2base` abstracts `LLA2Base`
from CoordinateConversions (not under src/), so every theorem below holds
for an arbitrary such conversion.  The C code builds the LLA triple as
`(Latitude/1e7, Longitude/1e7, GeoidSeparation+Altitude)` with the int32
cast to double before the division, and the ECEF triple with C integer
division of the int32 centimetre values by 100. -/
def load_gps_position
    (lla2base : ℚ × ℚ × ℚ → ℚ × ℚ × ℚ → Vec3 × Vec3 × Vec3 → Vec3)
    (home : HomeLocationData) (gps : GPSPositionData)
    (counter : ℕ) (msg : GpsMsg) : ℕ × GpsMsg :=
  let msg := { msg with updated := true }
  if home.Set = false ∨ home.Indoor = true then
    (counter,
     { msg with NED := vec0, groundspeed := 0, heading := 0, quality := -1 })
  else
    if 7 ≤ gps.Satellites ∧ gps.PDOP < PDOP_GATE then
      if counter < 30 then
        (counter + 1, { msg with quality := 0 })
      else
        let lla : ℚ × ℚ × ℚ :=
          ((gps.Latitude : ℚ) / 10000000, (gps.Longitude : ℚ) / 10000000,
           gps.GeoidSeparation + gps.Altitude)
        let ecef : ℚ × ℚ × ℚ :=
          ((Int.tdiv home.ECEF.1 100 : ℤ), (Int.tdiv home.ECEF.2.1 100 : ℤ),
           (Int.tdiv home.ECEF.2.2 100 : ℤ))
        (counter,
         { msg with
             groundspeed := gps.Groundspeed
             heading := gps.Heading
             NED := lla2base lla ecef home.RNE
             quality := 1 })
    else
      (0, { msg with quality := 0 })

/-- Algorithm codes.  `ahrssettings.h` and the wire proto header are not
under src/; the two setting choices and the two wire codes are modelled as
distinct integer codes (C enums are integers, and the settings field can
hold any stored value). -/
def AHRSSETTINGS_ALGORITHM_SIMPLE : ℤ := 0

/-- Setting code for the INSGPS choice (see `AHRSSETTINGS_ALGORITHM_SIMPLE`). -/
def AHRSSETTINGS_ALGORITHM_INSGPS : ℤ := 1

/-- Wire code written for the SIMPLE choice. -/
def SIMPLE_Algo : ℤ := 0

/-- Wire code written for the INSGPS choice. -/
def INSGPS_Algo : ℤ := 1

/-- Embedding of the algorithm-request construction (lines 247-252): the C
code declares a fresh `struct opahrs_msg_v1 req` and assigns its algorithm
field only under the two equality tests, so `initial` models the
uninitialised stack contents of that field. -/
def buildAlgorithmField (algorithmSetting : ℤ) (initial : ℤ) : ℤ :=
  let afterFirst :=
    if algorithmSetting = AHRSSETTINGS_ALGORITHM_INSGPS then INSGPS_Algo else initial
  if algorithmSetting = AHRSSETTINGS_ALGORITHM_SIMPLE then SIMPLE_Algo else afterFirst

/-- The AHRSSettings UAVObject fields the module reads. -/
structure AHRSSettingsData where
  UpdatePeriod : ℕ
  UpdateRaw : Bool
  UpdateFiltered : Bool
  Algorithm : ℤ
deriving DecidableEq, Repr

/-- Session state owned by the AHRSComms task: the three AhrsStatus synced
booleans, the module-level dirty flags, the calibration tracker, the
`GPSGoodUpdates` counter, the five uint16 error counters and the alarm. -/
structure CommsState where
  homeSet : Bool
  calibrationSet : Bool
  algorithmSet : Bool
  homeDirty : Bool
  settingsDirty : Bool
  baroDirty : Bool
  gpsDirty : Bool
  cal : CalTrackerState
  gpsGoodUpdates : ℕ
  update_errors : ℕ
  attituderaw_errors : ℕ
  home_errors : ℕ
  calibration_errors : ℕ
  algorithm_errors : ℕ
  alarmCritical : Bool
deriving DecidableEq, Repr

/-- Increment of a uint16 counter (wraps at 2^16, as `uint16_t` `++` does). -/
def bump16 (n : ℕ) : ℕ := (n + 1) % 65536

/-- External data and transport outcomes consumed by one streaming
iteration: the snapshots read from the object store and the result of each
exchange the iteration may perform. -/
structure StreamInputs where
  settings : AHRSSettingsData
  home : HomeLocationData
  gps : GPSPositionData
  baroAltitude : ℚ
  lla2base : ℚ × ℚ × ℚ → ℚ × ℚ × ℚ → Vec3 × Vec3 × Vec3 → Vec3
  gpsMsgInit : GpsMsg
  magNorthResult : OpahrsResult
  calResult : OpahrsResult
  calRsp : OpahrsRspCalibration
  algorithmResult : OpahrsResult
  attituderawResult : OpahrsResult
  updateResult : OpahrsResult

/-- Embedding of the top of the outer task loop (lines 168-175): raise the
CRITICAL alarm and clear the three synced booleans.  Line 174 clears
`AlgorithmSet` with the `AHRSSTATUS_CALIBRATIONSET_FALSE` sentinel of the
calibration field; both sentinels denote the same false value.  Note that
`GPSGoodUpdates` is NOT touched here. -/
def enterResyncing (s : CommsState) : CommsState :=
  { s with
      alarmCritical := true
      homeSet := false
      calibrationSet := false
      algorithmSet := false }

/-- Embedding of task entry (line 161): `GPSGoodUpdates = 0`, executed once
before the outer loop. -/
def taskInit (s : CommsState) : CommsState :=
  { s with gpsGoodUpdates := 0 }

/-- Embedding of the successful identity query (lines 185-192):
`update_ahrs_status` writes the status output object and the alarm is
cleared. -/
def identitySuccess (s : CommsState) : CommsState :=
  { s with alarmCritical := false }

/-- Step 2 of a streaming iteration (lines 202-219): push the magnetic
reference when the home location is dirty or not yet synced.  `Except`
error means `break` back to the outer resync loop. -/
def homeStep (i : StreamInputs) (s : CommsState) : Except CommsState CommsState :=
  if s.homeDirty = true ∨ s.homeSet = false then
    match i.magNorthResult with
    | .ok => .ok { s with homeDirty := false, homeSet := true }
    | .failed =>
        .error { s with home_errors := bump16 s.home_errors, homeSet := false }
  else
    .ok s

/-- Step 3 of a streaming iteration (lines 221-242): push the calibration
when dirty or not yet synced.  On success `update_calibration` writes the
echo back (raising the one-shot local flag), the dirty flag is cleared and
`CalibrationSet` is latched true only when the echoed mode is not
`AHRS_ECHO`. -/
def calibStep (i : StreamInputs) (s : CommsState) : Except CommsState CommsState :=
  if s.cal.calibDirty = true ∨ s.calibrationSet = false then
    match i.calResult with
    | .ok =>
        let cal1 := update_calibration i.calRsp s.cal
        .ok { s with
                cal := { cal1 with calibDirty := false }
                calibrationSet :=
                  if i.calRsp.measure_var ≠ .echo then true else s.calibrationSet }
    | .failed =>
        .error { s with
                   calibrationSet := false
                   calibration_errors := bump16 s.calibration_errors }
  else
    .ok s

/-- Step 4 of a streaming iteration (lines 244-264): push the algorithm
when the settings are dirty or it is not yet synced.  The request content
is `buildAlgorithmField i.settings.Algorithm garbage` and does not enter
this state. -/
def algoStep (i : StreamInputs) (s : CommsState) : Except CommsState CommsState :=
  if s.settingsDirty = true ∨ s.algorithmSet = false then
    match i.algorithmResult with
    | .ok => .ok { s with algorithmSet := true }
    | .failed =>
        .error { s with
                   algorithmSet := false
                   algorithm_errors := bump16 s.algorithm_errors }
  else
    .ok s

/-- Step 5 of a streaming iteration (lines 268-278): when raw mode is on,
request a raw attitude sample; `update_attitude_raw` writes an output
object outside this state. -/
def rawStep (i : StreamInputs) (s : CommsState) : Except CommsState CommsState :=
  if i.settings.UpdateRaw = true then
    match i.attituderawResult with
    | .ok => .ok s
    | .failed =>
        .error { s with attituderaw_errors := bump16 s.attituderaw_errors }
  else
    .ok s

/-- Step 6 of a streaming iteration (lines 280-310): when filtered mode is
on, build the combined update (barometer sub-message when its flag is set,
GPS sub-message via `load_gps_position` when its flag is set — this is
where `GPSGoodUpdates` moves), exchange it, and on success clear exactly
the included sub-flags; `process_update` writes output objects outside
this state. -/
def filteredStep (i : StreamInputs) (s : CommsState) : Except CommsState CommsState :=
  if i.settings.UpdateFiltered = true then
    let baroIncluded := s.baroDirty
    let gpsLoad :=
      if s.gpsDirty = true then
        load_gps_position i.lla2base i.home i.gps s.gpsGoodUpdates i.gpsMsgInit
      else
        (s.gpsGoodUpdates, { i.gpsMsgInit with updated := false })
    let s1 := { s with gpsGoodUpdates := gpsLoad.1 }
    match i.updateResult with
    | .ok =>
        .ok { s1 with
                baroDirty := if baroIncluded then false else s1.baroDirty
                gpsDirty := if gpsLoad.2.updated then false else s1.gpsDirty }
    | .failed =>
        .error { s1 with update_errors := bump16 s1.update_errors }
  else
    .ok s

/-- One full streaming iteration (lines 196-313): steps 2-6 in order, each
failure abandoning the remainder (`Except.error` models the `break` back
to the outer resync loop). -/
def streamingIteration (i : StreamInputs) (s : CommsState) : Except CommsState CommsState :=
  match homeStep i s with
  | .error e => .error e
  | .ok s1 =>
    match calibStep i s1 with
    | .error e => .error e
    | .ok s2 =>
      match algoStep i s2 with
      | .error e => .error e
      | .ok s3 =>
        match rawStep i s3 with
        | .error e => .error e
        | .ok s4 => filteredStep i s4

/-- The state carried by either outcome of an iteration. -/
def resultState : Except CommsState CommsState → CommsState
  | .error e => e
  | .ok s => s

/-- Whether the iteration broke back to the resync loop. -/
def isError : Except CommsState CommsState → Bool
  | .error _ => true
  | .ok _ => false

/-- The five error counters, in declaration order
(update, attituderaw, home, calibration, algorithm). -/
def errVec (s : CommsState) : ℕ × ℕ × ℕ × ℕ × ℕ :=
  (s.update_errors, s.attituderaw_errors, s.home_errors,
   s.calibration_errors, s.algorithm_errors)

end AhrsComms

namespace AhrsComms.Marshal

/-- Euclidean norm of a real three-vector, as the C code computes it:
`sqrt (x*x + y*y + z*z)`. -/
noncomputable def norm3 (v : ℝ × ℝ × ℝ) : ℝ :=
  Real.sqrt (v.1 * v.1 + v.2.1 * v.2.1 + v.2.2 * v.2.2)

open Classical in
/-- Embedding of `load_magnetic_north` (ahrs_comms.c lines 375-396) over
`ℝ`: when the stored `Be` vector is exactly zero the message carries
`(1,0,0)`; otherwise each component is divided by the Euclidean length. -/
noncomputable def load_magnetic_north (Be : ℝ × ℝ × ℝ) : ℝ × ℝ × ℝ :=
  if Be.1 = 0 ∧ Be.2.1 = 0 ∧ Be.2.2 = 0 then
    (1, 0, 0)
  else
    let len := Real.sqrt (Be.1 * Be.1 + Be.2.1 * Be.2.1 + Be.2.2 * Be.2.2)
    (Be.1 / len, Be.2.1 / len, Be.2.2 / len)

/-- Two-argument arctangent in degrees, with the range `(-180, 180]` of
`atan2`, realised through the argument of the complex number `x + y i`. -/
noncomputable def atan2deg (y x : ℝ) : ℝ :=
  Complex.arg ⟨x, y⟩ * 180 / Real.pi

/-- Modelled from the spec: `Quaternion2RPY` lives in
`CoordinateConversions.c`, which is not under src/; per the spec it
converts the response quaternion to roll/pitch/yaw in degrees, roll and
yaw being two-argument arctangents (range `(-180, 180]`) and pitch an
arcsine. -/
noncomputable def Quaternion2RPY (q : ℝ × ℝ × ℝ × ℝ) : ℝ × ℝ × ℝ :=
  let q1 := q.1
  let q2 := q.2.1
  let q3 := q.2.2.1
  let q4 := q.2.2.2
  (atan2deg (2 * (q1 * q2 + q3 * q4)) (1 - 2 * (q2 * q2 + q3 * q3)),
   Real.arcsin (2 * (q1 * q3 - q2 * q4)) * 180 / Real.pi,
   atan2deg (2 * (q1 * q4 + q2 * q3)) (1 - 2 * (q3 * q3 + q4 * q4)))

/-- Embedding of the attitude part of `process_update` (lines 455-466):
convert the quaternion, subtract the configured roll and pitch biases,
and add 360 to the yaw exactly when it is negative; no bias touches yaw. -/
noncomputable def process_update_attitude
    (q : ℝ × ℝ × ℝ × ℝ) (rollBias pitchBias : ℝ) : ℝ × ℝ × ℝ :=
  let rpy := Quaternion2RPY q
  (rpy.1 - rollBias, rpy.2.1 - pitchBias,
   if rpy.2.2 < 0 then rpy.2.2 + 360 else rpy.2.2)

end AhrsComms.Marshal

namespace AhrsComms

/-! Concrete data used by counterexamples and witnesses. -/

/-- An all-zero calibration record in SET mode. -/
def cal0 : AHRSCalibrationData :=
  ⟨.varSet, vec0, vec0, vec0, vec0, vec0, vec0, vec0, vec0, vec0⟩

/-- Tracker with clean flags around `cal0`. -/
def tracker0 : CalTrackerState := ⟨cal0, false, false⟩

/-- Fresh session state: nothing synced, only the GPS flag dirty. -/
def state0 : CommsState :=
  { homeSet := false
    calibrationSet := false
    algorithmSet := false
    homeDirty := false
    settingsDirty := false
    baroDirty := false
    gpsDirty := true
    cal := tracker0
    gpsGoodUpdates := 0
    update_errors := 0
    attituderaw_errors := 0
    home_errors := 0
    calibration_errors := 0
    algorithm_errors := 0
    alarmCritical := false }

/-- A set, outdoor home location. -/
def home1 : HomeLocationData :=
  { Be := ⟨1, 0, 0⟩, Set := true, Indoor := false
    ECEF := (0, 0, 0), RNE := (vec0, vec0, vec0) }

/-- A GPS fix passing the quality gate: 8 satellites, DOP 2.0. -/
def gps1 : GPSPositionData :=
  { Latitude := 0, Longitude := 0, Altitude := 0, GeoidSeparation := 0
    Groundspeed := 0, Heading := 0, Satellites := 8, PDOP := 2 }

/-- Settings running only the filtered update. -/
def settings1 : AHRSSettingsData :=
  { UpdatePeriod := 100, UpdateRaw := false, UpdateFiltered := true
    Algorithm := AHRSSETTINGS_ALGORITHM_INSGPS }

/-- Prior (stack-residue) contents of the GPS sub-message buffer, with a
visibly nonzero NED. -/
def gpsMsg0 : GpsMsg :=
  { updated := false, NED := ⟨1, 2, 3⟩, groundspeed := 0, heading := 0, quality := 0 }

/-- A concrete stand-in for the external `LLA2Base` conversion. -/
def lla2base0 : ℚ × ℚ × ℚ → ℚ × ℚ × ℚ → Vec3 × Vec3 × Vec3 → Vec3 :=
  fun _ _ _ => vec0

/-- A calibration response echoing SET mode with zero variances. -/
def calRsp0 : OpahrsRspCalibration :=
  { measure_var := .set, accel_var := vec0, gyro_var := vec0, mag_var := vec0 }

/-- Scenario-D inputs: every exchange succeeds except the combined update. -/
def inputsD : StreamInputs :=
  { settings := settings1
    home := home1
    gps := gps1
    baroAltitude := 0
    lla2base := lla2base0
    gpsMsgInit := gpsMsg0
    magNorthResult := .ok
    calResult := .ok
    calRsp := calRsp0
    algorithmResult := .ok
    attituderawResult := .ok
    updateResult := .failed }

/-- The state on which Scenario D runs its streaming iteration: task
start, first entry to RESYNCING, then a successful identity query. -/
def stateD : CommsState := identitySuccess (enterResyncing (taskInit state0))

/-- A calibration record differing from `cal0` only in the magnetometer
bias. -/
def calA : AHRSCalibrationData := { cal0 with mag_bias := ⟨1, 2, 3⟩ }

/-- A session state whose calibration is already latched done but whose
calibration record is dirty again. -/
def stateC7 : CommsState :=
  { state0 with calibrationSet := true, cal := { tracker0 with calibDirty := true } }

/-- Inputs whose calibration exchange succeeds with an `AHRS_ECHO` echo. -/
def inputsC7 : StreamInputs :=
  { inputsD with calResult := .ok, calRsp := { calRsp0 with measure_var := .echo } }

/-- The action of one GPS sample on the `GPSGoodUpdates` counter. -/
def gpsCounterStep
    (lla2base : ℚ × ℚ × ℚ → ℚ × ℚ × ℚ → Vec3 × Vec3 × Vec3 → Vec3)
    (home : HomeLocationData) (gps : GPSPositionData) (msg : GpsMsg)
    (c : ℕ) : ℕ :=
  (load_gps_position lla2base home gps c msg).1

end AhrsComms

open AhrsComms

/-! Helper lemmas. -/

/-- The gate threshold constant is the source's float literal `3.5`. -/
theorem PDOP_GATE_eq : PDOP_GATE = 3.5 := by
  have h : PDOP_GATE = Rat.divInt 7 2 := by rw [PDOP_GATE, Rat.mk'_eq_divInt]; norm_num
  rw [h, Rat.divInt_eq_div]
  norm_num

/-- The home step, when it cannot fail, succeeds and changes at most the
home flag and boolean. -/
theorem homeStep_ok_char (i : StreamInputs) (s : CommsState)
    (h : (s.homeDirty = true ∨ s.homeSet = false) → i.magNorthResult = .ok) :
    ∃ s', homeStep i s = .ok s' ∧
      s'.update_errors = s.update_errors ∧
      s'.attituderaw_errors = s.attituderaw_errors ∧
      s'.home_errors = s.home_errors ∧
      s'.calibration_errors = s.calibration_errors ∧
      s'.algorithm_errors = s.algorithm_errors ∧
      s'.cal = s.cal ∧ s'.calibrationSet = s.calibrationSet ∧
      s'.settingsDirty = s.settingsDirty ∧ s'.algorithmSet = s.algorithmSet ∧
      s'.baroDirty = s.baroDirty ∧ s'.gpsDirty = s.gpsDirty ∧
      s'.gpsGoodUpdates = s.gpsGoodUpdates := by
  by_cases hg : s.homeDirty = true ∨ s.homeSet = false
  · simp only [homeStep, if_pos hg, h hg]
    exact ⟨_, rfl, rfl, rfl, rfl, rfl, rfl, rfl, rfl, rfl, rfl, rfl, rfl, rfl⟩
  · simp only [homeStep, if_neg hg]
    exact ⟨s, rfl, rfl, rfl, rfl, rfl, rfl, rfl, rfl, rfl, rfl, rfl, rfl, rfl⟩

/-- The home step, taken and failing, breaks out with exactly the home
counter bumped. -/
theorem homeStep_fail_char (i : StreamInputs) (s : CommsState)
    (hg : s.homeDirty = true ∨ s.homeSet = false) (hf : i.magNorthResult = .failed) :
    homeStep i s = .error { s with home_errors := bump16 s.home_errors, homeSet := false } := by
  rw [homeStep, if_pos hg, hf]

/-- The calibration step, when it cannot fail, succeeds and preserves the
counters and the fields later guards read. -/
theorem calibStep_ok_char (i : StreamInputs) (s : CommsState)
    (h : (s.cal.calibDirty = true ∨ s.calibrationSet = false) → i.calResult = .ok) :
    ∃ s', calibStep i s = .ok s' ∧
      s'.update_errors = s.update_errors ∧
      s'.attituderaw_errors = s.attituderaw_errors ∧
      s'.home_errors = s.home_errors ∧
      s'.calibration_errors = s.calibration_errors ∧
      s'.algorithm_errors = s.algorithm_errors ∧
      s'.settingsDirty = s.settingsDirty ∧ s'.algorithmSet = s.algorithmSet ∧
      s'.baroDirty = s.baroDirty ∧ s'.gpsDirty = s.gpsDirty ∧
      s'.gpsGoodUpdates = s.gpsGoodUpdates := by
  by_cases hg : s.cal.calibDirty = true ∨ s.calibrationSet = false
  · simp only [calibStep, if_pos hg, h hg]
    exact ⟨_, rfl, rfl, rfl, rfl, rfl, rfl, rfl, rfl, rfl, rfl, rfl⟩
  · simp only [calibStep, if_neg hg]
    exact ⟨s, rfl, rfl, rfl, rfl, rfl, rfl, rfl, rfl, rfl, rfl, rfl⟩

/-- The calibration step, taken and failing, breaks out with exactly the
calibration counter bumped and `CalibrationSet` cleared. -/
theorem calibStep_fail_char (i : StreamInputs) (s : CommsState)
    (hg : s.cal.calibDirty = true ∨ s.calibrationSet = false) (hf : i.calResult = .failed) :
    calibStep i s =
      .error { s with calibrationSet := false,
                      calibration_errors := bump16 s.calibration_errors } := by
  rw [calibStep, if_pos hg, hf]

/-- The algorithm step, when it cannot fail, succeeds and preserves the
counters and the fields later steps read. -/
theorem algoStep_ok_char (i : StreamInputs) (s : CommsState)
    (h : (s.settingsDirty = true ∨ s.algorithmSet = false) → i.algorithmResult = .ok) :
    ∃ s', algoStep i s = .ok s' ∧
      s'.update_errors = s.update_errors ∧
      s'.attituderaw_errors = s.attituderaw_errors ∧
      s'.home_errors = s.home_errors ∧
      s'.calibration_errors = s.calibration_errors ∧
      s'.algorithm_errors = s.algorithm_errors ∧
      s'.baroDirty = s.baroDirty ∧ s'.gpsDirty = s.gpsDirty ∧
      s'.gpsGoodUpdates = s.gpsGoodUpdates := by
  by_cases hg : s.settingsDirty = true ∨ s.algorithmSet = false
  · simp only [algoStep, if_pos hg, h hg]
    exact ⟨_, rfl, rfl, rfl, rfl, rfl, rfl, rfl, rfl, rfl⟩
  · simp only [algoStep, if_neg hg]
    exact ⟨s, rfl, rfl, rfl, rfl, rfl, rfl, rfl, rfl, rfl⟩

/-- The algorithm step, taken and failing, breaks out with exactly the
algorithm counter bumped. -/
theorem algoStep_fail_char (i : StreamInputs) (s : CommsState)
    (hg : s.settingsDirty = true ∨ s.algorithmSet = false) (hf : i.algorithmResult = .failed) :
    algoStep i s =
      .error { s with algorithmSet := false,
                      algorithm_errors := bump16 s.algorithm_errors } := by
  rw [algoStep, if_pos hg, hf]

/-- The raw step, when it cannot fail, returns the state untouched. -/
theorem rawStep_ok_char (i : StreamInputs) (s : CommsState)
    (h : i.settings.UpdateRaw = true → i.attituderawResult = .ok) :
    rawStep i s = .ok s := by
  by_cases hg : i.settings.UpdateRaw = true
  · rw [rawStep, if_pos hg, h hg]
  · rw [rawStep, if_neg hg]

/-- The raw step, taken and failing, breaks out with exactly the
raw-attitude counter bumped. -/
theorem rawStep_fail_char (i : StreamInputs) (s : CommsState)
    (hg : i.settings.UpdateRaw = true) (hf : i.attituderawResult = .failed) :
    rawStep i s = .error { s with attituderaw_errors := bump16 s.attituderaw_errors } := by
  rw [rawStep, if_pos hg, hf]

/-- The filtered step, when it cannot fail, succeeds and preserves the
five counters. -/
theorem filteredStep_ok_char (i : StreamInputs) (s : CommsState)
    (h : i.settings.UpdateFiltered = true → i.updateResult = .ok) :
    ∃ s', filteredStep i s = .ok s' ∧
      s'.update_errors = s.update_errors ∧
      s'.attituderaw_errors = s.attituderaw_errors ∧
      s'.home_errors = s.home_errors ∧
      s'.calibration_errors = s.calibration_errors ∧
      s'.algorithm_errors = s.algorithm_errors := by
  by_cases hg : i.settings.UpdateFiltered = true
  · simp only [filteredStep, if_pos hg, h hg]
    exact ⟨_, rfl, rfl, rfl, rfl, rfl, rfl⟩
  · simp only [filteredStep, if_neg hg]
    exact ⟨s, rfl, rfl, rfl, rfl, rfl, rfl⟩

/-- The filtered step, taken and failing, breaks out with exactly the
update counter bumped. -/
theorem filteredStep_fail_char (i : StreamInputs) (s : CommsState)
    (hg : i.settings.UpdateFiltered = true) (hf : i.updateResult = .failed) :
    ∃ e, filteredStep i s = .error e ∧
      e.update_errors = bump16 s.update_errors ∧
      e.attituderaw_errors = s.attituderaw_errors ∧
      e.home_errors = s.home_errors ∧
      e.calibration_errors = s.calibration_errors ∧
      e.algorithm_errors = s.algorithm_errors := by
  simp only [filteredStep, if_pos hg, hf]
  exact ⟨_, rfl, rfl, rfl, rfl, rfl, rfl⟩

/-! Claim theorems. -/

/-- C1 (counterexample): a reachable re-entry into RESYNCING at which the
three synced booleans are cleared but the GPS good-fix counter is NOT
reset to 0.  Starting from task start, a first resync and identity, one
streaming iteration absorbs a passing GPS fix (counter becomes 1) and then
the combined update fails; the following entry to RESYNCING leaves the
counter at 1, refuting the claim that the counter is reset on every such
entry. -/
theorem ahrs_c1_resync_entry_counterexample :
    isError (streamingIteration inputsD stateD) = true ∧
    (enterResyncing (resultState (streamingIteration inputsD stateD))).homeSet = false ∧
    (enterResyncing (resultState (streamingIteration inputsD stateD))).calibrationSet = false ∧
    (enterResyncing (resultState (streamingIteration inputsD stateD))).algorithmSet = false ∧
    (enterResyncing (resultState (streamingIteration inputsD stateD))).gpsGoodUpdates = 1 ∧
    ¬((enterResyncing (resultState (streamingIteration inputsD stateD))).gpsGoodUpdates = 0) := by
  decide

/-- C1 (amended): on every entry to RESYNCING the three synced booleans
are cleared together (and the alarm is raised), but the GPS good-fix
counter is left unchanged; it is reset to 0 only once, at task start
(line 161), and on failing fixes. -/
theorem ahrs_c1_resync_entry_amended (s : CommsState) :
    enterResyncing s =
      { s with alarmCritical := true, homeSet := false,
               calibrationSet := false, algorithmSet := false } ∧
    (enterResyncing s).gpsGoodUpdates = s.gpsGoodUpdates ∧
    (taskInit s).gpsGoodUpdates = 0 :=
  ⟨rfl, rfl, rfl⟩

/-- C2: any single exchange failure during a streaming period increments
exactly the counter of the failing category by one (modulo the uint16
width), abandons the period (the iteration breaks back to the resync
loop), and a failure-free period moves no counter. -/
theorem ahrs_c2_failure_single_counter (i : StreamInputs) (s : CommsState) :
    ((s.homeDirty = true ∨ s.homeSet = false) → i.magNorthResult = .failed →
      isError (streamingIteration i s) = true ∧
      errVec (resultState (streamingIteration i s)) =
        (s.update_errors, s.attituderaw_errors, bump16 s.home_errors,
         s.calibration_errors, s.algorithm_errors)) ∧
    (((s.homeDirty = true ∨ s.homeSet = false) → i.magNorthResult = .ok) →
      (s.cal.calibDirty = true ∨ s.calibrationSet = false) → i.calResult = .failed →
      isError (streamingIteration i s) = true ∧
      errVec (resultState (streamingIteration i s)) =
        (s.update_errors, s.attituderaw_errors, s.home_errors,
         bump16 s.calibration_errors, s.algorithm_errors)) ∧
    (((s.homeDirty = true ∨ s.homeSet = false) → i.magNorthResult = .ok) →
      ((s.cal.calibDirty = true ∨ s.calibrationSet = false) → i.calResult = .ok) →
      (s.settingsDirty = true ∨ s.algorithmSet = false) → i.algorithmResult = .failed →
      isError (streamingIteration i s) = true ∧
      errVec (resultState (streamingIteration i s)) =
        (s.update_errors, s.attituderaw_errors, s.home_errors,
         s.calibration_errors, bump16 s.algorithm_errors)) ∧
    (((s.homeDirty = true ∨ s.homeSet = false) → i.magNorthResult = .ok) →
      ((s.cal.calibDirty = true ∨ s.calibrationSet = false) → i.calResult = .ok) →
      ((s.settingsDirty = true ∨ s.algorithmSet = false) → i.algorithmResult = .ok) →
      i.settings.UpdateRaw = true → i.attituderawResult = .failed →
      isError (streamingIteration i s) = true ∧
      errVec (resultState (streamingIteration i s)) =
        (s.update_errors, bump16 s.attituderaw_errors, s.home_errors,
         s.calibration_errors, s.algorithm_errors)) ∧
    (((s.homeDirty = true ∨ s.homeSet = false) → i.magNorthResult = .ok) →
      ((s.cal.calibDirty = true ∨ s.calibrationSet = false) → i.calResult = .ok) →
      ((s.settingsDirty = true ∨ s.algorithmSet = false) → i.algorithmResult = .ok) →
      (i.settings.UpdateRaw = true → i.attituderawResult = .ok) →
      i.settings.UpdateFiltered = true → i.updateResult = .failed →
      isError (streamingIteration i s) = true ∧
      errVec (resultState (streamingIteration i s)) =
        (bump16 s.update_errors, s.attituderaw_errors, s.home_errors,
         s.calibration_errors, s.algorithm_errors)) ∧
    (((s.homeDirty = true ∨ s.homeSet = false) → i.magNorthResult = .ok) →
      ((s.cal.calibDirty = true ∨ s.calibrationSet = false) → i.calResult = .ok) →
      ((s.settingsDirty = true ∨ s.algorithmSet = false) → i.algorithmResult = .ok) →
      (i.settings.UpdateRaw = true → i.attituderawResult = .ok) →
      (i.settings.UpdateFiltered = true → i.updateResult = .ok) →
      isError (streamingIteration i s) = false ∧
      errVec (resultState (streamingIteration i s)) = errVec s) := by
  refine ⟨?_, ?_, ?_, ?_, ?_, ?_⟩
  · intro hg hf
    have h1 := homeStep_fail_char i s hg hf
    simp only [streamingIteration, h1]
    exact ⟨rfl, rfl⟩
  · intro hok hg hf
    obtain ⟨s1, e1, hu1, hr1, hh1, hc1, ha1, hcal1, hcs1, _, _, _, _, _⟩ :=
      homeStep_ok_char i s hok
    have hg1 : s1.cal.calibDirty = true ∨ s1.calibrationSet = false := by
      rw [hcal1, hcs1]; exact hg
    have h2 := calibStep_fail_char i s1 hg1 hf
    simp only [streamingIteration, e1, h2]
    refine ⟨rfl, ?_⟩
    simp [errVec, isError, resultState, hu1, hr1, hh1, hc1, ha1]
  · intro hok1 hok2 hg hf
    obtain ⟨s1, e1, hu1, hr1, hh1, hc1, ha1, hcal1, hcs1, hsd1, has1, _, _, _⟩ :=
      homeStep_ok_char i s hok1
    have hok2' : (s1.cal.calibDirty = true ∨ s1.calibrationSet = false) → i.calResult = .ok := by
      rw [hcal1, hcs1]; exact hok2
    obtain ⟨s2, e2, hu2, hr2, hh2, hc2, ha2, hsd2, has2, _, _, _⟩ :=
      calibStep_ok_char i s1 hok2'
    have hg2 : s2.settingsDirty = true ∨ s2.algorithmSet = false := by
      rw [hsd2, has2, hsd1, has1]; exact hg
    have h3 := algoStep_fail_char i s2 hg2 hf
    simp only [streamingIteration, e1, e2, h3]
    refine ⟨rfl, ?_⟩
    simp [errVec, isError, resultState, hu1, hr1, hh1, hc1, ha1, hu2, hr2, hh2, hc2, ha2]
  · intro hok1 hok2 hok3 hg hf
    obtain ⟨s1, e1, hu1, hr1, hh1, hc1, ha1, hcal1, hcs1, hsd1, has1, _, _, _⟩ :=
      homeStep_ok_char i s hok1
    have hok2' : (s1.cal.calibDirty = true ∨ s1.calibrationSet = false) → i.calResult = .ok := by
      rw [hcal1, hcs1]; exact hok2
    obtain ⟨s2, e2, hu2, hr2, hh2, hc2, ha2, hsd2, has2, _, _, _⟩ :=
      calibStep_ok_char i s1 hok2'
    have hok3' : (s2.settingsDirty = true ∨ s2.algorithmSet = false) → i.algorithmResult = .ok := by
      rw [hsd2, has2, hsd1, has1]; exact hok3
    obtain ⟨s3, e3, hu3, hr3, hh3, hc3, ha3, _, _, _⟩ := algoStep_ok_char i s2 hok3'
    have h4 := rawStep_fail_char i s3 hg hf
    simp only [streamingIteration, e1, e2, e3, h4]
    refine ⟨rfl, ?_⟩
    simp [errVec, isError, resultState,
          hu1, hr1, hh1, hc1, ha1, hu2, hr2, hh2, hc2, ha2, hu3, hr3, hh3, hc3, ha3]
  · intro hok1 hok2 hok3 hok4 hg hf
    obtain ⟨s1, e1, hu1, hr1, hh1, hc1, ha1, hcal1, hcs1, hsd1, has1, _, _, _⟩ :=
      homeStep_ok_char i s hok1
    have hok2' : (s1.cal.calibDirty = true ∨ s1.calibrationSet = false) → i.calResult = .ok := by
      rw [hcal1, hcs1]; exact hok2
    obtain ⟨s2, e2, hu2, hr2, hh2, hc2, ha2, hsd2, has2, _, _, _⟩ :=
      calibStep_ok_char i s1 hok2'
    have hok3' : (s2.settingsDirty = true ∨ s2.algorithmSet = false) → i.algorithmResult = .ok := by
      rw [hsd2, has2, hsd1, has1]; exact hok3
    obtain ⟨s3, e3, hu3, hr3, hh3, hc3, ha3, _, _, _⟩ := algoStep_ok_char i s2 hok3'
    have h4 := rawStep_ok_char i s3 hok4
    obtain ⟨e, h5, heu, her, heh, hec, hea⟩ := filteredStep_fail_char i s3 hg hf
    simp only [streamingIteration, e1, e2, e3, h4, h5]
    refine ⟨rfl, ?_⟩
    simp [errVec, isError, resultState, heu, her, heh, hec, hea,
          hu1, hr1, hh1, hc1, ha1, hu2, hr2, hh2, hc2, ha2, hu3, hr3, hh3, hc3, ha3]
  · intro hok1 hok2 hok3 hok4 hok5
    obtain ⟨s1, e1, hu1, hr1, hh1, hc1, ha1, hcal1, hcs1, hsd1, has1, _, _, _⟩ :=
      homeStep_ok_char i s hok1
    have hok2' : (s1.cal.calibDirty = true ∨ s1.calibrationSet = false) → i.calResult = .ok := by
      rw [hcal1, hcs1]; exact hok2
    obtain ⟨s2, e2, hu2, hr2, hh2, hc2, ha2, hsd2, has2, _, _, _⟩ :=
      calibStep_ok_char i s1 hok2'
    have hok3' : (s2.settingsDirty = true ∨ s2.algorithmSet = false) → i.algorithmResult = .ok := by
      rw [hsd2, has2, hsd1, has1]; exact hok3
    obtain ⟨s3, e3, hu3, hr3, hh3, hc3, ha3, _, _, _⟩ := algoStep_ok_char i s2 hok3'
    have h4 := rawStep_ok_char i s3 hok4
    obtain ⟨s5, h5, hu5, hr5, hh5, hc5, ha5⟩ := filteredStep_ok_char i s3 hok5
    simp only [streamingIteration, e1, e2, e3, h4, h5]
    refine ⟨rfl, ?_⟩
    simp [errVec, isError, resultState, hu5, hr5, hh5, hc5, ha5,
          hu1, hr1, hh1, hc1, ha1, hu2, hr2, hh2, hc2, ha2, hu3, hr3, hh3, hc3, ha3]

/-- C2 (witness): Scenario D at concrete inputs — the combined update
fails, the period ends in a break to RESYNCING, and only the update
counter moves, from 0 to 1. -/
theorem ahrs_c2_failure_single_counter_witness :
    isError (streamingIteration inputsD stateD) = true ∧
    errVec (resultState (streamingIteration inputsD stateD)) = (1, 0, 0, 0, 0) := by
  have h := (ahrs_c2_failure_single_counter inputsD stateD).2.2.2.2.1
    (by decide) (by decide) (by decide) (by decide) (by decide) (by decide)
  refine ⟨h.1, ?_⟩
  rw [h.2]
  decide

/-- C6 (counterexample): the magnetometer bias IS transmitted —
`load_calibration` copies `mag_bias` into the request (lines 347-349), so
two records differing only in `mag_bias` produce different request
messages, refuting the claim that the magnetometer bias is not sent. -/
theorem ahrs_c6_calibration_payload_counterexample :
    calA = { cal0 with mag_bias := ⟨1, 2, 3⟩ } ∧
    (load_calibration calA).mag_bias = calA.mag_bias ∧
    ¬(load_calibration calA = load_calibration cal0) := by
  refine ⟨rfl, rfl, ?_⟩
  decide

/-- C6 (amended): the calibration request carries the accelerometer and
gyroscope bias, scale and variance vectors, the magnetometer bias and the
magnetometer variance; only the magnetometer scale is not transmitted
(the built message is invariant under any change to `mag_scale`). -/
theorem ahrs_c6_calibration_payload_amended (d : AHRSCalibrationData) :
    (load_calibration d).accel_bias = d.accel_bias ∧
    (load_calibration d).accel_scale = d.accel_scale ∧
    (load_calibration d).accel_var = d.accel_var ∧
    (load_calibration d).gyro_bias = d.gyro_bias ∧
    (load_calibration d).gyro_scale = d.gyro_scale ∧
    (load_calibration d).gyro_var = d.gyro_var ∧
    (load_calibration d).mag_bias = d.mag_bias ∧
    (load_calibration d).mag_var = d.mag_var ∧
    ∀ v : Vec3, load_calibration { d with mag_scale := v } = load_calibration d :=
  ⟨rfl, rfl, rfl, rfl, rfl, rfl, rfl, rfl, fun _ => rfl⟩

/-- C7 (counterexample): a successful calibration exchange whose echoed
mode is `AHRS_ECHO` (the spec's "continuous measurement") with
`CalibrationSet` already true leaves it TRUE, not false: the code only
skips the latch-to-true, it never clears the flag on success. -/
theorem ahrs_c7_calibration_latch_counterexample :
    (stateC7.cal.calibDirty = true ∨ stateC7.calibrationSet = false) ∧
    inputsC7.calResult = .ok ∧
    inputsC7.calRsp.measure_var = .echo ∧
    isError (calibStep inputsC7 stateC7) = false ∧
    (resultState (calibStep inputsC7 stateC7)).calibrationSet = true ∧
    ¬((resultState (calibStep inputsC7 stateC7)).calibrationSet = false) := by
  decide

/-- C7 (amended): after a successful calibration exchange,
`CalibrationSet` is set to true unless the echoed mode is `AHRS_ECHO`, in
which case it is left UNCHANGED (in particular it stays false when it was
false); on exchange failure it is set to false. -/
theorem ahrs_c7_calibration_latch_amended (i : StreamInputs) (s : CommsState) :
    ((s.cal.calibDirty = true ∨ s.calibrationSet = false) → i.calResult = .ok →
      isError (calibStep i s) = false ∧
      (resultState (calibStep i s)).calibrationSet =
        (if i.calRsp.measure_var ≠ .echo then true else s.calibrationSet)) ∧
    ((s.cal.calibDirty = true ∨ s.calibrationSet = false) → i.calResult = .failed →
      isError (calibStep i s) = true ∧
      (resultState (calibStep i s)).calibrationSet = false) := by
  constructor
  · intro hg hr
    simp only [calibStep, if_pos hg, hr]
    exact ⟨rfl, rfl⟩
  · intro hg hr
    simp only [calibStep, if_pos hg, hr]
    exact ⟨rfl, rfl⟩

/-- C7 (witness): at the concrete echo-mode inputs the success branch of
the amended claim evaluates to an unchanged `CalibrationSet`. -/
theorem ahrs_c7_calibration_latch_witness :
    isError (calibStep inputsC7 stateC7) = false ∧
    (resultState (calibStep inputsC7 stateC7)).calibrationSet = true := by
  have h := (ahrs_c7_calibration_latch_amended inputsC7 stateC7).1 (by decide) (by decide)
  refine ⟨h.1, ?_⟩
  rw [h.2]
  decide

/-- C8: the calibration echo-suppression flag is one-shot.
`update_calibration` raises it (and only writes the echoed variances, not
the dirty flag); the very next change notification consumes it without
setting the dirty flag; and a notification arriving with the flag clear
sets the dirty flag. -/
theorem ahrs_c8_echo_suppression (rsp : OpahrsRspCalibration) (s : CalTrackerState) :
    (update_calibration rsp s).calibLocal = true ∧
    (update_calibration rsp s).calibDirty = s.calibDirty ∧
    AHRSCalibrationUpdatedCb (update_calibration rsp s) =
      { update_calibration rsp s with calibLocal := false } ∧
    (AHRSCalibrationUpdatedCb (update_calibration rsp s)).calibDirty = s.calibDirty ∧
    (s.calibLocal = false →
      AHRSCalibrationUpdatedCb s = { s with calibDirty := true }) := by
  refine ⟨rfl, rfl, rfl, rfl, ?_⟩
  intro h
  simp [AHRSCalibrationUpdatedCb, h]

/-- C8 (witness): at the concrete tracker state, the self-write's echo
notification leaves the dirty flag clear while an external notification
sets it. -/
theorem ahrs_c8_echo_suppression_witness :
    (AHRSCalibrationUpdatedCb (update_calibration calRsp0 tracker0)).calibDirty = false ∧
    AHRSCalibrationUpdatedCb tracker0 = { tracker0 with calibDirty := true } :=
  ⟨(ahrs_c8_echo_suppression calRsp0 tracker0).2.2.2.1,
   (ahrs_c8_echo_suppression calRsp0 tracker0).2.2.2.2 rfl⟩

/-- C10: when the selected algorithm is neither the INSGPS nor the SIMPLE
code, the algorithm field of the request is never assigned, so the
request carries whatever value the uninitialised field already held. -/
theorem ahrs_c10_algorithm_uninitialized (a initial : ℤ)
    (h1 : a ≠ AHRSSETTINGS_ALGORITHM_INSGPS) (h2 : a ≠ AHRSSETTINGS_ALGORITHM_SIMPLE) :
    buildAlgorithmField a initial = initial := by
  simp [buildAlgorithmField, h1, h2]

/-- C10 (witness): algorithm code 7 is neither choice, and the field keeps
its arbitrary prior value 42. -/
theorem ahrs_c10_algorithm_uninitialized_witness :
    buildAlgorithmField 7 42 = 42 :=
  ahrs_c10_algorithm_uninitialized 7 42 (by decide) (by decide)

/-- One passing GPS sample advances the counter by one below 30 and leaves
it unchanged at 30. -/
theorem gpsCounterStep_gate
    (lla2base : ℚ × ℚ × ℚ → ℚ × ℚ × ℚ → Vec3 × Vec3 × Vec3 → Vec3)
    (home : HomeLocationData) (gps : GPSPositionData) (msg : GpsMsg)
    (hset : home.Set = true) (hind : home.Indoor = false)
    (hsat : 7 ≤ gps.Satellites) (hdop : gps.PDOP < PDOP_GATE) (c : ℕ) :
    gpsCounterStep lla2base home gps msg c = if c < 30 then c + 1 else c := by
  have hcond : ¬(home.Set = false ∨ home.Indoor = true) := by simp [hset, hind]
  by_cases hc : c < 30
  · simp only [gpsCounterStep, load_gps_position, if_neg hcond,
               if_pos (And.intro hsat hdop), if_pos hc]
  · simp only [gpsCounterStep, load_gps_position, if_neg hcond,
               if_pos (And.intro hsat hdop), if_neg hc]

/-- Iterating passing samples from a reset counter reaches `min n 30`. -/
theorem gpsCounterStep_iterate
    (lla2base : ℚ × ℚ × ℚ → ℚ × ℚ × ℚ → Vec3 × Vec3 × Vec3 → Vec3)
    (home : HomeLocationData) (gps : GPSPositionData) (msg : GpsMsg)
    (hset : home.Set = true) (hind : home.Indoor = false)
    (hsat : 7 ≤ gps.Satellites) (hdop : gps.PDOP < PDOP_GATE) :
    ∀ n : ℕ, (gpsCounterStep lla2base home gps msg)^[n] 0 = min n 30 := by
  intro n
  induction n with
  | zero => simp
  | succ n ih =>
      rw [Function.iterate_succ_apply', ih,
          gpsCounterStep_gate lla2base home gps msg hset hind hsat hdop]
      rcases lt_or_ge n 30 with h | h
      · rw [if_pos (by omega : min n 30 < 30)]
        omega
      · rw [if_neg (by omega : ¬(min n 30 < 30))]
        omega

set_option maxRecDepth 8000 in
/-- C3 (counterexample): with satellites = 8 and DOP = 2.0 throughout,
the 30th sample (counter having reached 29) is still tagged ramping
(quality 0), not good — the first good tag appears only on sample 31. -/
theorem ahrs_c3_hysteresis_counterexample :
    gps1.Satellites = 8 ∧ gps1.PDOP = 2 ∧
    (load_gps_position lla2base0 home1 gps1
        ((gpsCounterStep lla2base0 home1 gps1 gpsMsg0)^[29] 0) gpsMsg0).2.quality = 0 ∧
    ¬((load_gps_position lla2base0 home1 gps1
        ((gpsCounterStep lla2base0 home1 gps1 gpsMsg0)^[29] 0) gpsMsg0).2.quality = 1) := by
  decide

/-- C3 (amended): with home set and outdoor, under a stream of samples
passing the gate (satellites ≥ 7, DOP < 3.5) from a reset counter, the
counter after n samples is `min n 30`; the (n+1)-th sample is tagged
ramping (0) for the first 30 samples and good (1) from sample 31 on —
good appears only after 30 consecutive passing samples have been counted;
and any sample failing the gate resets the counter to 0 and is tagged
ramping. -/
theorem ahrs_c3_hysteresis_amended
    (lla2base : ℚ × ℚ × ℚ → ℚ × ℚ × ℚ → Vec3 × Vec3 × Vec3 → Vec3)
    (home : HomeLocationData) (gps : GPSPositionData) (msg : GpsMsg)
    (hset : home.Set = true) (hind : home.Indoor = false)
    (hsat : 7 ≤ gps.Satellites) (hdop : gps.PDOP < PDOP_GATE) :
    (∀ n : ℕ, (gpsCounterStep lla2base home gps msg)^[n] 0 = min n 30) ∧
    (∀ n : ℕ,
      (load_gps_position lla2base home gps
          ((gpsCounterStep lla2base home gps msg)^[n] 0) msg).2.quality =
        if n < 30 then 0 else 1) ∧
    (∀ (gps2 : GPSPositionData) (c : ℕ) (msg2 : GpsMsg),
      ¬(7 ≤ gps2.Satellites ∧ gps2.PDOP < PDOP_GATE) →
      (load_gps_position lla2base home gps2 c msg2).1 = 0 ∧
      (load_gps_position lla2base home gps2 c msg2).2.quality = 0) := by
  have hcond : ¬(home.Set = false ∨ home.Indoor = true) := by simp [hset, hind]
  have hiter := gpsCounterStep_iterate lla2base home gps msg hset hind hsat hdop
  refine ⟨hiter, ?_, ?_⟩
  · intro n
    rw [hiter n]
    by_cases hn : n < 30
    · rw [if_pos hn]
      simp only [load_gps_position, if_neg hcond, if_pos (And.intro hsat hdop),
                 if_pos (by omega : min n 30 < 30)]
    · rw [if_neg hn]
      simp only [load_gps_position, if_neg hcond, if_pos (And.intro hsat hdop),
                 if_neg (by omega : ¬(min n 30 < 30))]
  · intro gps2 c msg2 hgate
    simp only [load_gps_position, if_neg hcond, if_neg hgate]
    exact ⟨by trivial, by trivial⟩

set_option maxRecDepth 8000 in
/-- C3 (witness): at the concrete passing stream, after 30 samples the
counter is 30 and sample 31 is the first tagged good. -/
theorem ahrs_c3_hysteresis_amended_witness :
    ((gpsCounterStep lla2base0 home1 gps1 gpsMsg0)^[30] 0 = 30) ∧
    (load_gps_position lla2base0 home1 gps1
        ((gpsCounterStep lla2base0 home1 gps1 gpsMsg0)^[30] 0) gpsMsg0).2.quality = 1 := by
  have h := ahrs_c3_hysteresis_amended lla2base0 home1 gps1 gpsMsg0
    (by decide) (by decide) (by decide) (by decide)
  constructor
  · rw [h.1 30]
    decide
  · rw [h.2.1 30]
    decide

/-- C4 (counterexample): a ramping sample does not carry a zero NED — at
counter 0 with a passing fix the emitted quality is ramping (0) while the
NED field still holds the request buffer's prior contents (1,2,3), not
(0,0,0): the ramping branches never assign NED. -/
theorem ahrs_c4_ramping_ned_counterexample :
    (load_gps_position lla2base0 home1 gps1 0 gpsMsg0).2.quality = 0 ∧
    (load_gps_position lla2base0 home1 gps1 0 gpsMsg0).2.NED = ⟨1, 2, 3⟩ ∧
    ¬((load_gps_position lla2base0 home1 gps1 0 gpsMsg0).2.NED = vec0) := by
  decide

/-- C4 (amended): in both ramping cases (gate passing with counter below
30, and gate failing) the emitted quality is ramping (0) and the NED field
is left exactly as the request buffer held it (unassigned), not forced to
zero; a zero NED is guaranteed only in the indoor/no-home branch, which is
tagged with quality -1. -/
theorem ahrs_c4_ramping_ned_amended
    (lla2base : ℚ × ℚ × ℚ → ℚ × ℚ × ℚ → Vec3 × Vec3 × Vec3 → Vec3)
    (home : HomeLocationData) (gps : GPSPositionData) (c : ℕ) (msg : GpsMsg) :
    (home.Set = true → home.Indoor = false →
      ((7 ≤ gps.Satellites ∧ gps.PDOP < PDOP_GATE) → c < 30 →
        (load_gps_position lla2base home gps c msg).2.quality = 0 ∧
        (load_gps_position lla2base home gps c msg).2.NED = msg.NED) ∧
      (¬(7 ≤ gps.Satellites ∧ gps.PDOP < PDOP_GATE) →
        (load_gps_position lla2base home gps c msg).2.quality = 0 ∧
        (load_gps_position lla2base home gps c msg).2.NED = msg.NED)) ∧
    (home.Set = false ∨ home.Indoor = true →
      (load_gps_position lla2base home gps c msg).2.quality = -1 ∧
      (load_gps_position lla2base home gps c msg).2.NED = vec0) := by
  constructor
  · intro hset hind
    have hcond : ¬(home.Set = false ∨ home.Indoor = true) := by simp [hset, hind]
    constructor
    · intro hgate hc
      simp only [load_gps_position, if_neg hcond, if_pos hgate, if_pos hc]
      exact ⟨by trivial, by trivial⟩
    · intro hgate
      simp only [load_gps_position, if_neg hcond, if_neg hgate]
      exact ⟨by trivial, by trivial⟩
  · intro hcond
    simp only [load_gps_position, if_pos hcond]
    exact ⟨by trivial, by trivial⟩

/-- C4 (witness): the amended claim evaluated at the concrete ramping
sample — quality 0 and the NED field unchanged from the buffer. -/
theorem ahrs_c4_ramping_ned_amended_witness :
    (load_gps_position lla2base0 home1 gps1 0 gpsMsg0).2.quality = 0 ∧
    (load_gps_position lla2base0 home1 gps1 0 gpsMsg0).2.NED = gpsMsg0.NED := by
  have h := (ahrs_c4_ramping_ned_amended lla2base0 home1 gps1 0 gpsMsg0).1
    (by decide) (by decide)
  exact h.1 (by decide) (by decide)

/-- The two-argument arctangent in degrees lies in `(-180, 180]`. -/
theorem atan2deg_mem (y x : ℝ) :
    -180 < Marshal.atan2deg y x ∧ Marshal.atan2deg y x ≤ 180 := by
  have h1 := Complex.neg_pi_lt_arg ⟨x, y⟩
  have h2 := Complex.arg_le_pi (⟨x, y⟩ : ℂ)
  have hpi := Real.pi_pos
  unfold Marshal.atan2deg
  constructor
  · rw [lt_div_iff₀ hpi]
    nlinarith
  · rw [div_le_iff₀ hpi]
    nlinarith

/-- C5: the magnetic-north message is the stored vector divided by its
Euclidean norm and has unit norm, except for the exact zero vector, which
is replaced by (1,0,0). -/
theorem ahrs_c5_mag_north_unit (v : ℝ × ℝ × ℝ) :
    (v = (0, 0, 0) → Marshal.load_magnetic_north v = (1, 0, 0)) ∧
    (v ≠ (0, 0, 0) →
      Marshal.load_magnetic_north v =
        (v.1 / Marshal.norm3 v, v.2.1 / Marshal.norm3 v, v.2.2 / Marshal.norm3 v) ∧
      Marshal.norm3 (Marshal.load_magnetic_north v) = 1) := by
  obtain ⟨a, b, c⟩ := v
  constructor
  · intro hv
    obtain ⟨h1, h2, h3⟩ : a = 0 ∧ b = 0 ∧ c = 0 := by
      simpa [Prod.ext_iff] using hv
    subst h1; subst h2; subst h3
    simp [Marshal.load_magnetic_north]
  · intro hv
    have hcomp : ¬(a = 0 ∧ b = 0 ∧ c = 0) := by
      rintro ⟨h1, h2, h3⟩
      exact hv (by simp [h1, h2, h3])
    have hS : 0 < a * a + b * b + c * c := by
      rcases not_and_or.mp hcomp with h | h
      · nlinarith [mul_self_pos.mpr h, mul_self_nonneg b, mul_self_nonneg c]
      · rcases not_and_or.mp h with h | h
        · nlinarith [mul_self_pos.mpr h, mul_self_nonneg a, mul_self_nonneg c]
        · nlinarith [mul_self_pos.mpr h, mul_self_nonneg a, mul_self_nonneg b]
    have hnorm : Marshal.norm3 (a, b, c) = Real.sqrt (a * a + b * b + c * c) := rfl
    have hL2 : Marshal.norm3 (a, b, c) * Marshal.norm3 (a, b, c) = a * a + b * b + c * c := by
      rw [hnorm]
      exact Real.mul_self_sqrt hS.le
    have heq : Marshal.load_magnetic_north (a, b, c) =
        (a / Marshal.norm3 (a, b, c), b / Marshal.norm3 (a, b, c),
         c / Marshal.norm3 (a, b, c)) := by
      rw [Marshal.load_magnetic_north, if_neg hcomp]
      rfl
    refine ⟨heq, ?_⟩
    rw [heq]
    show Real.sqrt
        (a / Marshal.norm3 (a, b, c) * (a / Marshal.norm3 (a, b, c)) +
         b / Marshal.norm3 (a, b, c) * (b / Marshal.norm3 (a, b, c)) +
         c / Marshal.norm3 (a, b, c) * (c / Marshal.norm3 (a, b, c))) = 1
    have key : a / Marshal.norm3 (a, b, c) * (a / Marshal.norm3 (a, b, c)) +
        b / Marshal.norm3 (a, b, c) * (b / Marshal.norm3 (a, b, c)) +
        c / Marshal.norm3 (a, b, c) * (c / Marshal.norm3 (a, b, c)) =
        (a * a + b * b + c * c) /
          (Marshal.norm3 (a, b, c) * Marshal.norm3 (a, b, c)) := by
      ring
    rw [key, hL2, div_self hS.ne', Real.sqrt_one]

/-- C5 (witness): the claim evaluated at v = (3,4,0), whose image has unit
norm, and at the zero vector, which maps to (1,0,0). -/
theorem ahrs_c5_mag_north_unit_witness :
    Marshal.norm3 (Marshal.load_magnetic_north ((3 : ℝ), 4, 0)) = 1 ∧
    Marshal.load_magnetic_north ((0 : ℝ), 0, 0) = (1, 0, 0) :=
  ⟨((ahrs_c5_mag_north_unit ((3 : ℝ), 4, 0)).2 (by norm_num [Prod.ext_iff])).2,
   (ahrs_c5_mag_north_unit ((0 : ℝ), 0, 0)).1 rfl⟩

/-- C9: the published attitude subtracts the configured biases from roll
and pitch only, and the published yaw is the converted yaw plus 360
exactly when that is negative — which places it in [0, 360). -/
theorem ahrs_c9_yaw_range (q : ℝ × ℝ × ℝ × ℝ) (rollBias pitchBias : ℝ) :
    Marshal.process_update_attitude q rollBias pitchBias =
      ((Marshal.Quaternion2RPY q).1 - rollBias,
       (Marshal.Quaternion2RPY q).2.1 - pitchBias,
       if (Marshal.Quaternion2RPY q).2.2 < 0 then (Marshal.Quaternion2RPY q).2.2 + 360
       else (Marshal.Quaternion2RPY q).2.2) ∧
    0 ≤ (Marshal.process_update_attitude q rollBias pitchBias).2.2 ∧
    (Marshal.process_update_attitude q rollBias pitchBias).2.2 < 360 := by
  obtain ⟨q1, q2, q3, q4⟩ := q
  have hb := atan2deg_mem (2 * (q1 * q4 + q2 * q3)) (1 - 2 * (q3 * q3 + q4 * q4))
  have hyaw : (Marshal.process_update_attitude (q1, q2, q3, q4) rollBias pitchBias).2.2 =
      if Marshal.atan2deg (2 * (q1 * q4 + q2 * q3)) (1 - 2 * (q3 * q3 + q4 * q4)) < 0
      then Marshal.atan2deg (2 * (q1 * q4 + q2 * q3)) (1 - 2 * (q3 * q3 + q4 * q4)) + 360
      else Marshal.atan2deg (2 * (q1 * q4 + q2 * q3)) (1 - 2 * (q3 * q3 + q4 * q4)) := rfl
  refine ⟨rfl, ?_, ?_⟩
  · rw [hyaw]
    split_ifs with h
    · linarith [hb.1]
    · linarith [not_lt.mp h]
  · rw [hyaw]
    split_ifs with h
    · linarith
    · linarith [hb.2]
